import Mathlib

/-!
Verification of the local-doc-assistant frontend core: chat state reducer,
streaming chat orchestration, source transformation, confidentiality
validation, and the file-upload validation and progress simulation.

Each definition is a shallow embedding of the corresponding TypeScript
function. Impure inputs (Date.now(), the SSE stream, context state) become
explicit parameters; JavaScript truthiness is made explicit where the source
relies on it.
-/

namespace DocAssistant

/-- Message status union from `types/index.ts`
(`"pending" | "sending" | "sent" | "streaming" | "completed" | "error"`). -/
inductive MsgStatus
  | pending
  | sending
  | sent
  | streaming
  | completed
  | error
deriving DecidableEq, Repr

/-- The `error` field of `ChatMessage` (`{ message: string; retryable: boolean }`). -/
structure MsgError where
  message : String
  retryable : Bool
deriving DecidableEq, Repr

/-- `FileAttachment` from `types/index.ts`. -/
structure FileAttachment where
  id : String
  name : String
  type : String
  size : Nat
  fileId : String
deriving DecidableEq, Repr

/-- `ChatMessage` from `types/index.ts`. Optional TS fields are `Option`s;
`none` models an absent (`undefined`) field. -/
structure ChatMessage where
  id : String
  content : String
  role : String
  timestamp : String
  sources : Option (List String) := none
  attachments : Option (List FileAttachment) := none
  isEditing : Option Bool := none
  isGenerating : Option Bool := none
  status : Option MsgStatus := none
  error : Option MsgError := none
deriving DecidableEq, Repr

/-- `Chat` from `types/index.ts`. -/
structure Chat where
  id : String
  title : String
  messages : List ChatMessage
  model : String
  createdAt : String
  updatedAt : String
  isActive : Option Bool := none
deriving DecidableEq, Repr

/-- `SearchMode` enum from `types/index.ts`. -/
inductive SearchMode
  | selected
  | hybrid
  | all
deriving DecidableEq, Repr

/-- `ChatState` from `types/chat.ts`. -/
structure ChatState where
  chats : List Chat
  currentChat : Option Chat
  isLoading : Bool
  error : Option String
  searchMode : SearchMode
  selectedFiles : List String
deriving DecidableEq, Repr

/-- `ChatAction` union from `types/chat.ts`. -/
inductive ChatAction
  | setChats (payload : List Chat)
  | addChat (payload : Chat)
  | updateChat (payload : Chat)
  | deleteChat (payload : String)
  | setCurrentChat (payload : Option Chat)
  | addMessage (chatId : String) (message : ChatMessage)
  | updateMessage (chatId : String) (messageId : String) (message : ChatMessage)
  | setLoading (payload : Bool)
  | setError (payload : Option String)
  | setSearchMode (payload : SearchMode)
  | setSelectedFiles (payload : List String)
  | addSelectedFile (payload : String)
  | removeSelectedFile (payload : String)
  | loadChatsStart
  | loadChatsSuccess (payload : List Chat)
  | loadChatsError (payload : String)
deriving DecidableEq, Repr

/-- `chat.messages.map(msg => msg.id === messageId ? message : msg)` —
the replacement map used by the UPDATE_MESSAGE case of the reducer. -/
def replaceMsg (messageId : String) (message : ChatMessage)
    (ms : List ChatMessage) : List ChatMessage :=
  ms.map (fun msg => if msg.id == messageId then message else msg)

/-- `chatReducer` from `reducers/chatReducer.ts`. The impure
`createTimestamp()` becomes the explicit `now` parameter. Optional chaining
`state.currentChat?.id === x` is `false` when `currentChat` is `null`. -/
def chatReducer (now : String) (state : ChatState) (action : ChatAction) : ChatState :=
  match action with
  | .loadChatsStart => { state with isLoading := true, error := none }
  | .loadChatsSuccess payload =>
      { state with
        isLoading := false, error := none, chats := payload,
        currentChat := payload.head? }
  | .loadChatsError payload => { state with isLoading := false, error := some payload }
  | .setChats payload => { state with chats := payload }
  | .addChat payload =>
      { state with chats := payload :: state.chats, currentChat := some payload }
  | .updateChat payload =>
      { state with
        chats := state.chats.map (fun chat =>
          if chat.id == payload.id then payload else chat),
        currentChat :=
          match state.currentChat with
          | some c => if c.id == payload.id then some payload else some c
          | none => none }
  | .deleteChat payload =>
      { state with
        chats := state.chats.filter (fun chat => chat.id != payload),
        currentChat :=
          match state.currentChat with
          | some c =>
              -- `state.chats[0] || null` reads the PRE-filter list
              if c.id == payload then state.chats.head? else some c
          | none => none }
  | .setCurrentChat payload => { state with currentChat := payload }
  | .addMessage chatId message =>
      { state with
        chats := state.chats.map (fun chat =>
          if chat.id == chatId then
            { chat with messages := chat.messages ++ [message], updatedAt := now }
          else chat),
        currentChat :=
          match state.currentChat with
          | some c =>
              if c.id == chatId then
                some { c with messages := c.messages ++ [message], updatedAt := now }
              else some c
          | none => none }
  | .updateMessage chatId messageId message =>
      { state with
        chats := state.chats.map (fun chat =>
          if chat.id == chatId then
            { chat with messages := replaceMsg messageId message chat.messages }
          else chat),
        currentChat :=
          match state.currentChat with
          | some c =>
              if c.id == chatId then
                some { c with messages := replaceMsg messageId message c.messages }
              else some c
          | none => none }
  | .setLoading payload => { state with isLoading := payload }
  | .setError payload => { state with error := payload }
  | .setSearchMode payload => { state with searchMode := payload }
  | .setSelectedFiles payload => { state with selectedFiles := payload }
  | .addSelectedFile payload =>
      { state with selectedFiles := state.selectedFiles ++ [payload] }
  | .removeSelectedFile payload =>
      { state with selectedFiles := state.selectedFiles.filter (fun id => id != payload) }

/-- The messages of the currently selected chat (empty when none selected). -/
def currentMessages (st : ChatState) : List ChatMessage :=
  match st.currentChat with
  | some c => c.messages
  | none => []

/-- `Model` from `types/index.ts`, with the locality/confidentiality fields
populated by `useModels.ts`. Optional TS fields are `Option`s. -/
structure Model where
  id : String
  name : String
  description : String
  provider : String
  maxTokens : Nat
  isAvailable : Bool
  isDefault : Option Bool := none
  isLocal : Option Bool := none
  canAccessConfidential : Option Bool := none
deriving DecidableEq, Repr

/-- `canModelAccessConfidential` from `hooks/useModels.ts`:
`models.find(m => m.id === modelId)?.canAccessConfidential ?? false`. -/
def canModelAccessConfidential (models : List Model) (modelId : String) : Bool :=
  ((models.find? (fun m => m.id == modelId)).bind
    (fun m => m.canAccessConfidential)).getD false

/-- `ConfidentialityValidation` interface (current revision of
`hooks/useConfidentialityValidation.ts`). -/
structure ConfidentialityValidation where
  hasConfidentialFiles : Bool
  isModelCompatible : Bool
  warningMessage : Option String
  blockedReason : Option String
  needsConfirmation : Bool
  confidentialFileNames : List String
  shouldShowModal : Bool
deriving DecidableEq, Repr

/-- `ProcessingStatus` enum from `types/index.ts`. -/
inductive ProcessingStatus
  | pending
  | processing
  | completed
  | failed
deriving DecidableEq, Repr

/-- `ProcessingPhase` union from `types/index.ts`. -/
inductive ProcessingPhase
  | upload
  | text_extraction
  | chunking
  | vectorization
deriving DecidableEq, Repr

/-- `File` from `types/index.ts` (document metadata record). -/
structure File where
  id : String
  name : String
  originalName : String
  size : Nat
  type : String
  uploadDate : String
  isPublic : Bool
  isConfidential : Bool
  processingStatus : ProcessingStatus
deriving DecidableEq, Repr

/-- Result shape of the earlier revision of `useConfidentialityValidation`
(the one that fills `blockedReason`). -/
structure ConfidentialityValidationRev1 where
  hasConfidentialFiles : Bool
  isModelCompatible : Bool
  warningMessage : Option String
  blockedReason : Option String
deriving DecidableEq, Repr

/-- Earlier revision of `useConfidentialityValidation`
(hooks/useConfidentialityValidation.ts, the revision that composes a
`blockedReason` message). Context reads (`fileState.files`,
`chatState.selectedFiles`, the loaded `models`) are explicit parameters. -/
def useConfidentialityValidationRev1 (files : List File)
    (selectedFileIds : List String) (models : List Model)
    (selectedModelId : String) : ConfidentialityValidationRev1 :=
  let selectedFiles := files.filter (fun file => selectedFileIds.contains file.id)
  let hasConfidentialFiles := selectedFiles.any (fun file => file.isConfidential)
  let isModelCompatible := canModelAccessConfidential models selectedModelId
  if hasConfidentialFiles && !isModelCompatible then
    let confidentialFileNames :=
      (selectedFiles.filter (fun file => file.isConfidential)).map
        (fun file => file.originalName)
    let fileCount := confidentialFileNames.length
    let fileText := if fileCount == 1 then "file" else "files"
    let truncatedNames :=
      if confidentialFileNames.length > 2 then
        String.intercalate ", " (confidentialFileNames.take 2) ++ " and " ++
          toString (confidentialFileNames.length - 2) ++ " more"
      else String.intercalate ", " confidentialFileNames
    { hasConfidentialFiles := hasConfidentialFiles,
      isModelCompatible := isModelCompatible,
      warningMessage := none,
      blockedReason := some
        ("Cannot Send Message: You have " ++ toString fileCount ++
          " confidential " ++ fileText ++ " attached (" ++ truncatedNames ++
          ") but selected \"" ++ selectedModelId ++
          "\" which is an external model. Confidential files can only be processed by local models for security reasons. Please either switch to a local model (like Mistral) or remove the confidential files to continue.") }
  else
    { hasConfidentialFiles := hasConfidentialFiles,
      isModelCompatible := if hasConfidentialFiles then isModelCompatible else true,
      warningMessage := none,
      blockedReason := none }

/-- Current revision of `useConfidentialityValidation`
(hooks/useConfidentialityValidation.ts, the revision imported by
`ChatInput.tsx`): a confidential-file/external-model mismatch only requests
a confirmation modal; `blockedReason` is always `null`. -/
def useConfidentialityValidation (files : List File)
    (selectedFileIds : List String) (models : List Model)
    (selectedModelId : String) : ConfidentialityValidation :=
  let selectedFiles := files.filter (fun file => selectedFileIds.contains file.id)
  let hasConfidentialFiles := selectedFiles.any (fun file => file.isConfidential)
  let isModelCompatible := canModelAccessConfidential models selectedModelId
  let mismatch := hasConfidentialFiles && !isModelCompatible
  let confidentialFileNames :=
    if mismatch then
      (selectedFiles.filter (fun file => file.isConfidential)).map
        (fun file => file.originalName)
    else []
  { hasConfidentialFiles := hasConfidentialFiles,
    isModelCompatible := if hasConfidentialFiles then isModelCompatible else true,
    warningMessage := none,
    blockedReason := none,
    needsConfirmation := mismatch,
    confidentialFileNames := confidentialFileNames,
    shouldShowModal := mismatch }

/-- JS `String.prototype.trim()`: strip leading and trailing whitespace.
Defined over the character list so that it is kernel-computable
(`String.trim`'s auxiliary functions do not reduce). -/
def jsTrim (s : String) : String :=
  String.mk (((s.data.dropWhile Char.isWhitespace).reverse.dropWhile
    Char.isWhitespace).reverse)

/-- `canSend` from `ChatPanel/ChatInput.tsx`:
`message.trim() && !isLoading` — it does not consult the confidentiality
validation at all. -/
def canSend (message : String) (isLoading : Bool) : Bool :=
  jsTrim message != "" && !isLoading

/-- `handleSubmit` from `ChatPanel/ChatInput.tsx`: when `canSend` holds the
trimmed message is handed to `onSendMessage`; otherwise nothing happens.
Returns the message sent, if any. -/
def handleSubmit (message : String) (isLoading : Bool) : Option String :=
  if canSend message isLoading then some (jsTrim message) else none

/-- `FileWithProgress` from `mock/fileUploadMocks.ts`. -/
structure FileWithProgress where
  file : File
  progress : Nat
  status : ProcessingStatus
  error : Option String := none
  processingPhase : Option ProcessingPhase := none
deriving DecidableEq, Repr

/-- `validateFile` from `Files/FileUpload.tsx`. -/
def validateFile (file : File) : Option String :=
  if file.type != "application/pdf" then some "Only PDF files are allowed"
  else if file.size > 50 * 1024 * 1024 then some "File size must be less than 50MB"
  else none

/-- `handleFileSelect` from `Files/FileUpload.tsx`: each incoming file is
validated; on error the `forEach` body returns early (after a UI-only
`alert`) so the file is never pushed into `newFiles`; the valid files are
appended to the pending list. -/
def handleFileSelect (prev : List FileWithProgress) (files : List File) :
    List FileWithProgress :=
  let newFiles := files.filterMap (fun file =>
    match validateFile file with
    | some _ => none
    | none => some { file := file, progress := 0,
                     status := ProcessingStatus.pending,
                     processingPhase := some ProcessingPhase.upload })
  prev ++ newFiles

/-- The files `handleUpload` iterates over in `Files/FileUpload.tsx`:
`[selectedFiles[index]]` for a single retry, the whole pending list
otherwise. Only these are ever passed to `uploadFile`. -/
def filesToUpload (selectedFiles : List FileWithProgress) (index : Option Nat) :
    List FileWithProgress :=
  match index with
  | some i => (selectedFiles[i]?).toList
  | none => selectedFiles

/-- The successive values taken by `progress` in the loop
`for (let progress = 0; progress <= 100; progress += stepSize)` of
`simulatePhaseProgress` (mock/fileUploadMocks.ts): the multiples of
`stepSize` that are at most 100, in increasing order. -/
def progressLoopValues (stepSize : Nat) : List Nat :=
  (List.range (100 / stepSize + 1)).map (fun i => i * stepSize)

/-- All writes to a file's `progress` performed by one
`simulatePhaseProgress` call: the initial `progress: 0` write (done together
with setting `processingPhase`) followed by the loop writes. -/
def simulatePhaseWrites (stepSize : Nat) : List Nat :=
  0 :: progressLoopValues stepSize

/-- The sequence of `progress` values a poller observes for one file over a
whole `simulateFileProcessing` run: upload (step 10), text extraction
(step 20), chunking (step 25), vectorization (step 15). -/
def simulateFileProcessingWrites : List Nat :=
  simulatePhaseWrites 10 ++ simulatePhaseWrites 20 ++
    simulatePhaseWrites 25 ++ simulatePhaseWrites 15

/-- The `metadata` bag of one backend source entry, with the three fields
`transformBackendMessageToChatMessage` reads. Absent fields are `none`. -/
structure SourceMetadata where
  filename : Option String := none
  file_path : Option String := none
  document_id : Option Nat := none
deriving DecidableEq, Repr

/-- One entry of a parsed backend `sources` array: a plain string, an object
(whose `metadata` may be absent), or any other JSON value (skipped by the
`forEach`, since it is neither a string nor a truthy object). -/
inductive SourceItem
  | str (s : String)
  | obj (metadata : Option SourceMetadata)
  | other
deriving DecidableEq, Repr

/-- The backend `sources` field after the `JSON.parse` step: an array, some
non-array value, or a parse failure (the `catch` branch). -/
inductive ParsedSources
  | arr (items : List SourceItem)
  | notArray
  | parseFailure
deriving DecidableEq, Repr

/-- JS string truthiness: `undefined` and `""` are falsy. -/
def strTruthy : Option String → Bool
  | some s => s != ""
  | none => false

/-- `filePath.split('/').pop()?.split('\\').pop()` — `split` never returns an
empty array, so `pop` is the last piece. -/
def pathBasename (p : String) : String :=
  (((p.splitOn "/").getLastD "").splitOn "\\").getLastD ""

/-- One iteration of the `parsedSources.forEach` body in
`transformBackendMessageToChatMessage`: the name added to the `fileNames`
set for this source, if any. -/
def extractItemName : SourceItem → Option String
  | .str s => some s
  | .obj metadata =>
      let md := metadata.getD {}
      let fileName : Option String :=
        if !(strTruthy md.filename) && strTruthy md.file_path then
          some (pathBasename (md.file_path.getD ""))
        else md.filename
      if strTruthy fileName then some (fileName.getD "")
      else
        match md.document_id with
        | some d => if d != 0 then some ("Document " ++ toString d)
                    else some "Unknown document"
        | none => some "Unknown document"
  | .other => none

/-- `fileNames.add(x)` on a JS `Set`: insertion order is preserved and an
element already present is ignored. -/
def setAdd (acc : List String) (x : String) : List String :=
  if x ∈ acc then acc else acc ++ [x]

/-- The sources branch of `transformBackendMessageToChatMessage`
(services/chatService.ts): absent sources, a non-array value, or a parse
failure leave `sources` `undefined`; an array is mapped to unique filenames
(first-seen order) with blank names filtered out. -/
def transformSources : Option ParsedSources → Option (List String)
  | none => none
  | some ParsedSources.notArray => none
  | some ParsedSources.parseFailure => none
  | some (ParsedSources.arr items) =>
      let names := items.filterMap extractItemName
      let fileNames := names.foldl setAdd []
      some (fileNames.filter (fun name => name != "" && jsTrim name != ""))

/-- A backend message row as consumed by
`transformBackendMessageToChatMessage` (ids are numeric in the backend). -/
structure BackendMessage where
  id : Nat
  content : String
  role : String
  timestamp : Option String := none
  sources : Option ParsedSources := none
deriving DecidableEq, Repr

/-- `transformBackendMessageToChatMessage` from `services/chatService.ts`.
The impure `new Date().toISOString()` fallback is the `nowIso` parameter. -/
def transformBackendMessageToChatMessage (backendMessage : BackendMessage)
    (nowIso : String) : ChatMessage :=
  { id := toString backendMessage.id,
    content := backendMessage.content,
    role := backendMessage.role,
    timestamp :=
      match backendMessage.timestamp with
      | some t => if t != "" then t else nowIso
      | none => nowIso,
    sources := transformSources backendMessage.sources,
    attachments := none,
    isEditing := some false,
    isGenerating := some false }

/-- Specification-side statement of first-seen deduplication: keep each
string at its first occurrence and drop all later repeats. Used to compare
the `Set`-based fold of the source against the spec's wording. -/
def dedupFirstSeen (l : List String) : List String :=
  match l with
  | [] => []
  | x :: xs => x :: dedupFirstSeen (xs.filter (fun y => y != x))
termination_by l.length
decreasing_by
  simp only [List.length_cons]
  exact Nat.lt_succ_of_le (List.length_filter_le _ _)

/-- `StreamChunk.type` union from `services/streamingService.ts`. -/
inductive ChunkType
  | start
  | chunk
  | sources
  | status
  | metadata
  | done
  | error
deriving DecidableEq, Repr

/-- One entry of a `sources` stream event: the payload items are either
plain strings or objects carrying a `text` field
(`typeof s === 'string' ? s : s.text || ''`). -/
inductive StreamSource
  | str (s : String)
  | obj (text : Option String)
deriving DecidableEq, Repr

/-- `s => typeof s === 'string' ? s : s.text || ''` from the sources case of
`sendMessage` in `contexts/ChatContext.tsx`. -/
def streamSourceText : StreamSource → String
  | .str s => s
  | .obj text => match text with
      | some t => if t != "" then t else ""
      | none => ""

/-- `StreamChunk` from `services/streamingService.ts`. -/
structure StreamChunk where
  type : ChunkType
  content : Option String := none
  session_id : Option Nat := none
  model : Option String := none
  sources : Option (List StreamSource) := none
  chunks_used : Option Nat := none
  error : Option String := none
deriving DecidableEq, Repr

/-- How `StreamingChatService.streamMessage` terminates once no further SSE
events arrive: the reader reports end-of-stream, `abort()` raised an
`AbortError`, or a transport error was thrown. -/
inductive StreamEnd
  | clean
  | aborted
  | failed (message : String)
deriving DecidableEq, Repr

/-- The chunks actually handed to `onChunk` by
`StreamingChatService.streamMessage`: each parsed chunk in order, stopping
right after the first `done` chunk (`if (chunk.type === 'done') return`). -/
def deliveredChunks (chunks : List StreamChunk) : List StreamChunk :=
  match chunks with
  | [] => []
  | c :: rest => if c.type == ChunkType.done then [c] else c :: deliveredChunks rest

/-- Whether (and with which message) `streamMessage` invokes `onError`:
never after a `done` chunk returned, never on an `AbortError`
(`error.name !== 'AbortError'` filters it), and with the thrown error on a
transport failure. -/
def streamErrorCall (chunks : List StreamChunk) (ending : StreamEnd) : Option String :=
  if chunks.any (fun c => c.type == ChunkType.done) then none
  else
    match ending with
    | .clean => none
    | .aborted => none
    | .failed message => some message

/-- `x || d` on JS strings: `undefined` and `""` fall back to the default. -/
def strOrDefault (x : Option String) (d : String) : String :=
  match x with
  | some s => if s != "" then s else d
  | none => d

/-- One `onChunk` callback of `sendMessage` in `contexts/ChatContext.tsx`
(the `switch (chunk.type)`): dispatches at most one action through the
reducer and updates the closed-over `accumulatedContent` /
`accumulatedSources` pair. `userMessage` / `assistantMessage` are the
constant message objects captured by the closure. -/
def handleChunkStep (currentChatId : String)
    (userMessage assistantMessage : ChatMessage) (assistantMessageId : String)
    (now : String) (st : ChatState) (acc : String × List String)
    (c : StreamChunk) : ChatState × (String × List String) :=
  match c.type with
  | .start =>
      (chatReducer now st (.updateMessage currentChatId userMessage.id
        { userMessage with status := some MsgStatus.sent }), acc)
  | .chunk =>
      match c.content with
      | some content =>
          if content != "" then
            let accContent := acc.1 ++ content
            (chatReducer now st (.updateMessage currentChatId assistantMessageId
              { assistantMessage with
                content := accContent,
                status := some MsgStatus.streaming,
                isGenerating := some true }), (accContent, acc.2))
          else (st, acc)
      | none => (st, acc)
  | .sources =>
      match c.sources with
      | some srcs =>
          let accSources := srcs.map streamSourceText
          (chatReducer now st (.updateMessage currentChatId assistantMessageId
            { assistantMessage with
              content := acc.1,
              sources := some accSources,
              status := some MsgStatus.streaming,
              isGenerating := some true }), (acc.1, accSources))
      | none => (st, acc)
  | .status => (st, acc)
  | .metadata => (st, acc)
  | .done =>
      (chatReducer now st (.updateMessage currentChatId assistantMessageId
        { assistantMessage with
          content := acc.1,
          sources := some acc.2,
          status := some MsgStatus.completed,
          isGenerating := some false }), acc)
  | .error =>
      (chatReducer now st (.updateMessage currentChatId assistantMessageId
        { assistantMessage with
          content := acc.1,
          status := some MsgStatus.error,
          isGenerating := some false,
          error := some { message := strOrDefault c.error "Unknown streaming error",
                          retryable := true } }), acc)

/-- The `onError` callback of `sendMessage` in `contexts/ChatContext.tsx`:
marks the user message as failed only if the captured `userMessage.status`
is `'sending'` (it never is — the captured object keeps status `'pending'`),
then marks the assistant message `error` keeping the accumulated content. -/
def handleStreamError (currentChatId : String)
    (userMessage assistantMessage : ChatMessage) (assistantMessageId : String)
    (accContent : String) (errorMessage : String) (now : String)
    (st : ChatState) : ChatState :=
  let st1 :=
    if userMessage.status == some MsgStatus.sending then
      chatReducer now st (.updateMessage currentChatId userMessage.id
        { userMessage with
          status := some MsgStatus.error,
          error := some { message := "Failed to send message", retryable := true } })
    else st
  chatReducer now st1 (.updateMessage currentChatId assistantMessageId
    { assistantMessage with
      content := accContent,
      status := some MsgStatus.error,
      isGenerating := some false,
      error := some { message := strOrDefault (some errorMessage) "Connection failed",
                      retryable := true } })

/-- The user message `sendMessage` constructs at the start of a turn
(`attachments: attachedFiles || undefined`; an empty array is truthy in JS,
so the field is the argument unchanged). -/
def mkUserMessage (uid content now : String)
    (attachedFiles : Option (List FileAttachment)) : ChatMessage :=
  { id := uid, content := content, role := "user", timestamp := now,
    status := some MsgStatus.pending, attachments := attachedFiles }

/-- The assistant placeholder message `sendMessage` constructs before
streaming starts — created directly with status `'streaming'`. -/
def mkAssistantMessage (aid now : String) : ChatMessage :=
  { id := aid, content := "", role := "assistant", timestamp := now,
    status := some MsgStatus.streaming, isGenerating := some true }

/-- `sendMessage` from `contexts/ChatContext.tsx` (the streaming revision).
Impure inputs are parameters: `uid`/`aid` are the ids minted from
`Date.now()` for the user and assistant messages (distinct in JS since they
are `n` and `n+1`), `now` the created timestamps, and the SSE stream is the
list of parsed chunks that arrive before the stream terminates with
`ending`. Returns the final state and whether the streaming service was
invoked (`streamMessage` is called unconditionally once a chat is open). -/
def sendMessage (st : ChatState) (content : String)
    (attachedFiles : Option (List FileAttachment)) (uid aid now : String)
    (chunks : List StreamChunk) (ending : StreamEnd) : ChatState × Bool :=
  match st.currentChat with
  | none => (st, false)
  | some currentChat =>
      let userMessage : ChatMessage := mkUserMessage uid content now attachedFiles
      let st1 := chatReducer now st (.addMessage currentChat.id userMessage)
      let st2 := chatReducer now st1 (.setSelectedFiles [])
      let assistantMessage : ChatMessage := mkAssistantMessage aid now
      let st3 := chatReducer now st2 (.addMessage currentChat.id assistantMessage)
      let st4 := chatReducer now st3 (.updateMessage currentChat.id userMessage.id
        { userMessage with status := some MsgStatus.sending })
      let folded := (deliveredChunks chunks).foldl
        (fun (p : ChatState × (String × List String)) c =>
          handleChunkStep currentChat.id userMessage assistantMessage aid now p.1 p.2 c)
        (st4, ("", []))
      let st5 :=
        match streamErrorCall chunks ending with
        | some e =>
            handleStreamError currentChat.id userMessage assistantMessage aid
              folded.2.1 e now folded.1
        | none => folded.1
      (st5, true)

/-- The `updateMessage` convenience method of `contexts/ChatContext.tsx`:
rebuilds the found message with new content and timestamp and dispatches
UPDATE_MESSAGE — with no regard to the message's status. (When the id is
not found the source spreads `undefined`; that branch is left as a no-op
here since no claim touches it.) -/
def updateMessage (st : ChatState) (messageId content now : String) : ChatState :=
  match st.currentChat with
  | none => st
  | some currentChat =>
      match currentChat.messages.find? (fun m => m.id == messageId) with
      | none => st
      | some m =>
          chatReducer now st (.updateMessage currentChat.id messageId
            { m with content := content, timestamp := now })

/-- A `chunk` SSE event carrying `content`. -/
def contentChunk (s : String) : StreamChunk :=
  { type := ChunkType.chunk, content := some s }

/-- A `start` SSE event. -/
def startChunk : StreamChunk :=
  { type := ChunkType.start }

/-- A `done` SSE event. -/
def doneChunk : StreamChunk :=
  { type := ChunkType.done }

/-- An `error` SSE event carrying an error message. -/
def errorChunk (e : String) : StreamChunk :=
  { type := ChunkType.error, error := some e }

/-- Concatenation of the streamed content deltas, in arrival order — the
value `accumulatedContent` holds after the deltas are appended. -/
def jsConcat : List String → String
  | [] => ""
  | s :: rest => s ++ jsConcat rest

/-- The part of a streaming turn's state that `sendMessage`'s callbacks can
touch: the user message, the assistant message, and the closed-over
accumulators. Used to characterize the effect of the dispatch sequence on
the current chat (proved equivalent to the stateful run below). -/
structure TurnView where
  userMsg : ChatMessage
  assistantMsg : ChatMessage
  accContent : String
  accSources : List String
deriving DecidableEq, Repr

/-- `handleChunkStep` restated on a `TurnView`: the same case analysis, with
the UPDATE_MESSAGE dispatches replaced by direct updates of the two
messages. -/
def uaChunkStep (userMessage assistantMessage : ChatMessage) (v : TurnView)
    (c : StreamChunk) : TurnView :=
  match c.type with
  | .start =>
      { v with userMsg := { userMessage with status := some MsgStatus.sent } }
  | .chunk =>
      match c.content with
      | some content =>
          if content != "" then
            let accContent := v.accContent ++ content
            { v with
              assistantMsg :=
                { assistantMessage with
                  content := accContent,
                  status := some MsgStatus.streaming,
                  isGenerating := some true },
              accContent := accContent }
          else v
      | none => v
  | .sources =>
      match c.sources with
      | some srcs =>
          let accSources := srcs.map streamSourceText
          { v with
            assistantMsg :=
              { assistantMessage with
                content := v.accContent,
                sources := some accSources,
                status := some MsgStatus.streaming,
                isGenerating := some true },
            accSources := accSources }
      | none => v
  | .status => v
  | .metadata => v
  | .done =>
      { v with
        assistantMsg :=
          { assistantMessage with
            content := v.accContent,
            sources := some v.accSources,
            status := some MsgStatus.completed,
            isGenerating := some false } }
  | .error =>
      { v with
        assistantMsg :=
          { assistantMessage with
            content := v.accContent,
            status := some MsgStatus.error,
            isGenerating := some false,
            error := some { message := strOrDefault c.error "Unknown streaming error",
                            retryable := true } } }

/-- `handleStreamError` restated on a `TurnView`. -/
def uaError (userMessage assistantMessage : ChatMessage) (v : TurnView)
    (errorMessage : String) : TurnView :=
  let v1 :=
    if userMessage.status == some MsgStatus.sending then
      { v with
        userMsg :=
          { userMessage with
            status := some MsgStatus.error,
            error := some { message := "Failed to send message", retryable := true } } }
    else v
  { v1 with
    assistantMsg :=
      { assistantMessage with
        content := v.accContent,
        status := some MsgStatus.error,
        isGenerating := some false,
        error := some { message := strOrDefault (some errorMessage) "Connection failed",
                        retryable := true } } }

/-- The final user/assistant messages of one streaming turn, as a pure
function of the arriving chunks and the way the stream ends. -/
def turnResult (userMessage assistantMessage : ChatMessage)
    (chunks : List StreamChunk) (ending : StreamEnd) : TurnView :=
  let v0 : TurnView :=
    { userMsg := { userMessage with status := some MsgStatus.sending },
      assistantMsg := assistantMessage, accContent := "", accSources := [] }
  let v := (deliveredChunks chunks).foldl (uaChunkStep userMessage assistantMessage) v0
  match streamErrorCall chunks ending with
  | some e => uaError userMessage assistantMessage v e
  | none => v

/-! Concrete sample data used by counterexamples and witnesses. -/

/-- A local model cleared for confidential documents (mock list entry of
`useModels.ts`). -/
def sampleLocalModel : Model :=
  { id := "mistral", name := "Mistral",
    description := "Local model - fast and efficient", provider := "Local",
    maxTokens := 4096, isAvailable := true, isDefault := some true,
    isLocal := some true, canAccessConfidential := some true }

/-- An external model not cleared for confidential documents (mock list
entry of `useModels.ts`). -/
def sampleExternalModel : Model :=
  { id := "gpt-4o", name := "GPT-4o",
    description := "Most capable OpenAI model", provider := "OpenAI",
    maxTokens := 8192, isAvailable := true, isLocal := some false,
    canAccessConfidential := some false }

/-- The loaded model list for the samples. -/
def sampleModels : List Model := [sampleLocalModel, sampleExternalModel]

/-- A confidential PDF document record. -/
def sampleConfidentialFile : File :=
  { id := "f1", name := "secret.pdf", originalName := "secret.pdf",
    size := 1000, type := "application/pdf", uploadDate := "2024-01-01",
    isPublic := false, isConfidential := true,
    processingStatus := ProcessingStatus.completed }

/-- A non-PDF file, rejected by `validateFile`. -/
def sampleTextFile : File :=
  { id := "f2", name := "notes.txt", originalName := "notes.txt", size := 10,
    type := "text/plain", uploadDate := "2024-01-02", isPublic := true,
    isConfidential := false, processingStatus := ProcessingStatus.pending }

/-- An open chat session with no messages yet, using the external model. -/
def emptyChat : Chat :=
  { id := "c1", title := "New Chat", messages := [], model := "gpt-4o",
    createdAt := "t", updatedAt := "t" }

/-- A chat state with `emptyChat` selected and the confidential file
attached. -/
def baseState : ChatState :=
  { chats := [emptyChat], currentChat := some emptyChat, isLoading := false,
    error := none, searchMode := SearchMode.all, selectedFiles := ["f1"] }

/-- A message that has already completed. -/
def completedMsg : ChatMessage :=
  { id := "m1", content := "final answer", role := "assistant",
    timestamp := "t1", sources := some ["doc.pdf"],
    status := some MsgStatus.completed, isGenerating := some false }

/-- A chat holding the completed message. -/
def chatWithCompleted : Chat :=
  { id := "c2", title := "T", messages := [completedMsg], model := "mistral",
    createdAt := "t", updatedAt := "t" }

/-- A state whose current chat holds a completed message. -/
def stateWithCompleted : ChatState :=
  { chats := [chatWithCompleted], currentChat := some chatWithCompleted,
    isLoading := false, error := none, searchMode := SearchMode.all,
    selectedFiles := [] }

/-- A single chat, first in the list and currently selected. -/
def chatA : Chat :=
  { id := "a", title := "A", messages := [], model := "mistral",
    createdAt := "t", updatedAt := "t" }

/-- The state holding only `chatA`, with `chatA` selected. -/
def stateA : ChatState :=
  { chats := [chatA], currentChat := some chatA, isLoading := false,
    error := none, searchMode := SearchMode.all, selectedFiles := [] }

/-- The attachment record `ChatDialog.handleSendMessage` builds for the
confidential file. -/
def sampleAttachment : FileAttachment :=
  { id := "x", name := "secret.pdf", type := "application/pdf", size := 1000,
    fileId := "f1" }

/-- `completedMsg` after an edit through the `updateMessage` convenience
method. -/
def editedMsg : ChatMessage :=
  { completedMsg with content := "edited", timestamp := "t2" }

/-! Helper lemmas about the reducer and message replacement. -/

lemma replaceMsg_eq_self (mid : String) (m : ChatMessage)
    (ms : List ChatMessage) (h : ∀ x ∈ ms, x.id ≠ mid) :
    replaceMsg mid m ms = ms := by
  unfold replaceMsg
  induction ms with
  | nil => rfl
  | cons a rest ih =>
      simp only [List.map_cons, List.mem_cons] at *
      rw [if_neg (by simp [h a (Or.inl rfl)]), ih (fun x hx => h x (Or.inr hx))]

lemma replaceMsg_append (mid : String) (m : ChatMessage)
    (ms l : List ChatMessage) (h : ∀ x ∈ ms, x.id ≠ mid) :
    replaceMsg mid m (ms ++ l) = ms ++ replaceMsg mid m l := by
  unfold replaceMsg
  rw [List.map_append]
  have : (ms.map fun msg => if msg.id == mid then m else msg) = ms :=
    replaceMsg_eq_self mid m ms h
  rw [this]

lemma replaceMsg_pair_user (uid aid : String) (m u a : ChatMessage)
    (ms : List ChatMessage) (hmu : ∀ x ∈ ms, x.id ≠ uid)
    (hu : u.id = uid) (ha : a.id = aid) (hne : uid ≠ aid) :
    replaceMsg uid m (ms ++ [u, a]) = ms ++ [m, a] := by
  rw [replaceMsg_append uid m ms [u, a] hmu]
  simp [replaceMsg, hu, ha, Ne.symm hne]

lemma replaceMsg_pair_assistant (uid aid : String) (m u a : ChatMessage)
    (ms : List ChatMessage) (hma : ∀ x ∈ ms, x.id ≠ aid)
    (hu : u.id = uid) (ha : a.id = aid) (hne : uid ≠ aid) :
    replaceMsg aid m (ms ++ [u, a]) = ms ++ [u, m] := by
  rw [replaceMsg_append aid m ms [u, a] hma]
  simp [replaceMsg, hu, ha, hne]

lemma currentChat_updateMessage (now : String) (st : ChatState) (c : Chat)
    (cid tid : String) (m : ChatMessage)
    (h : st.currentChat = some c) (hc : c.id = cid) :
    (chatReducer now st (ChatAction.updateMessage cid tid m)).currentChat
      = some { c with messages := replaceMsg tid m c.messages } := by
  simp [chatReducer, h, hc]

lemma currentChat_addMessage (now : String) (st : ChatState) (c : Chat)
    (cid : String) (m : ChatMessage)
    (h : st.currentChat = some c) (hc : c.id = cid) :
    (chatReducer now st (ChatAction.addMessage cid m)).currentChat
      = some { c with messages := c.messages ++ [m], updatedAt := now } := by
  simp [chatReducer, h, hc]

lemma currentChat_setSelectedFiles (now : String) (st : ChatState)
    (l : List String) :
    (chatReducer now st (ChatAction.setSelectedFiles l)).currentChat
      = st.currentChat := rfl

/-! Settling the claims. -/

/-- C10: a model id that does not occur in the loaded model list is treated
as not cleared for confidential documents —
`canModelAccessConfidential` falls back to `false`. -/
theorem C10_unknown_model_not_confidential (models : List Model)
    (modelId : String) (h : ∀ m ∈ models, m.id ≠ modelId) :
    canModelAccessConfidential models modelId = false := by
  unfold canModelAccessConfidential
  have hfind : models.find? (fun m => m.id == modelId) = none := by
    rw [List.find?_eq_none]
    intro m hm
    simp [h m hm]
  rw [hfind]
  rfl

/-- Witness for C10 at a concrete unknown model id. -/
theorem C10_witness :
    (∀ m ∈ sampleModels, m.id ≠ "claude-9") ∧
      canModelAccessConfidential sampleModels "claude-9" = false :=
  ⟨by decide, C10_unknown_model_not_confidential sampleModels "claude-9" (by decide)⟩

/-- C9 (code bug): deleting the currently selected chat when it is first in
the list leaves the just-deleted chat as `currentChat` while `chats` becomes
empty — the DELETE_CHAT fallback reads the pre-filter `state.chats[0]`. -/
theorem C9_delete_keeps_deleted_current :
    (chatReducer "t2" stateA (ChatAction.deleteChat "a")).chats = [] ∧
      (chatReducer "t2" stateA (ChatAction.deleteChat "a")).currentChat = some chatA ∧
      chatA.id = "a" := by
  refine ⟨?_, ?_, rfl⟩ <;> decide

/-- C3 counterexample: the sequence of `progress` values written during one
`simulateFileProcessing` run is not monotonically non-decreasing — it drops
back to 0 at every phase boundary. -/
theorem C3_progress_regresses :
    ¬ List.Chain' (· ≤ ·) simulateFileProcessingWrites := by
  rw [List.chain'_iff_pairwise]
  decide

/-- C3 amended: progress is monotonically non-decreasing only within a
single phase; every phase (upload 10, extraction 20, chunking 25,
vectorization 15) starts by resetting progress to 0, so the run-wide
sequence regresses at each phase boundary. -/
theorem C3_phase_monotone :
    List.Chain' (· ≤ ·) (simulatePhaseWrites 10) ∧
      List.Chain' (· ≤ ·) (simulatePhaseWrites 20) ∧
      List.Chain' (· ≤ ·) (simulatePhaseWrites 25) ∧
      List.Chain' (· ≤ ·) (simulatePhaseWrites 15) ∧
      (simulatePhaseWrites 10).head? = some 0 ∧
      (simulatePhaseWrites 20).head? = some 0 ∧
      (simulatePhaseWrites 25).head? = some 0 ∧
      (simulatePhaseWrites 15).head? = some 0 := by
  simp only [List.chain'_iff_pairwise]
  decide

/-- C8: a file whose type is not `application/pdf` is rejected by
`validateFile` before any side effect — it never enters the pending upload
list built by `handleFileSelect`, and hence is never among the files
`handleUpload` passes to `uploadFile`. -/
theorem C8_invalid_file_rejected (prev : List FileWithProgress)
    (files : List File) (f : File)
    (hf : f.type ≠ "application/pdf")
    (hprev : ∀ p ∈ prev, p.file ≠ f) :
    (∀ p ∈ handleFileSelect prev files, p.file ≠ f) ∧
      ∀ index, ∀ p ∈ filesToUpload (handleFileSelect prev files) index,
        p.file ≠ f := by
  have hmain : ∀ p ∈ handleFileSelect prev files, p.file ≠ f := by
    intro p hp
    unfold handleFileSelect at hp
    rcases List.mem_append.mp hp with hL | hR
    · exact hprev p hL
    · rcases List.mem_filterMap.mp hR with ⟨x, _hx, hfx⟩
      cases hval : validateFile x with
      | some e => rw [hval] at hfx; cases hfx
      | none =>
          rw [hval] at hfx
          cases hfx
          intro hpf
          have hx : x.type = "application/pdf" := by
            by_contra hxt
            unfold validateFile at hval
            rw [if_pos (by simp [hxt])] at hval
            cases hval
          simp only at hpf
          rw [hpf] at hx
          exact hf hx
  refine ⟨hmain, ?_⟩
  intro index p hp
  apply hmain
  cases index with
  | none => exact hp
  | some i =>
      simp only [filesToUpload] at hp
      rcases ho : (handleFileSelect prev files)[i]? with _ | q
      · rw [ho] at hp; cases hp
      · rw [ho] at hp
        have hq : p = q := by
          simpa using hp
        rw [hq]
        exact List.getElem?_mem ho

/-- Witness for C8: the plain-text sample file is rejected. -/
theorem C8_witness :
    sampleTextFile.type ≠ "application/pdf" ∧
      (∀ p ∈ handleFileSelect [] [sampleTextFile], p.file ≠ sampleTextFile) :=
  ⟨by decide,
    (C8_invalid_file_rejected [] [sampleTextFile] sampleTextFile (by decide)
      (by intro p hp; cases hp)).1⟩

/-- C7 counterexample: a Message whose status is `completed` is not
immutable — the `updateMessage` convenience method replaces its content
(and the reducer applies the replacement unconditionally). -/
theorem C7_terminal_message_mutated :
    completedMsg.status = some MsgStatus.completed ∧
      (updateMessage stateWithCompleted "m1" "edited" "t2").currentChat =
        some { chatWithCompleted with messages := [editedMsg] } ∧
      editedMsg ≠ completedMsg := by
  refine ⟨rfl, by decide, by decide⟩

/-- C7 amended: no operation of the chat state enforces immutability of
terminal messages — an UPDATE_MESSAGE action replaces a message with a
matching id even when its status is `completed` or `error`, removing the old
message from the chat. -/
theorem C7_update_replaces_regardless (st : ChatState) (c : Chat)
    (cid mid now : String) (newMsg msg : ChatMessage)
    (h : st.currentChat = some c) (hcid : c.id = cid)
    (hmem : msg ∈ c.messages) (hid : msg.id = mid)
    (_hterm : msg.status = some MsgStatus.completed ∨
      msg.status = some MsgStatus.error)
    (hne : msg ≠ newMsg) :
    ∃ c2,
      (chatReducer now st (ChatAction.updateMessage cid mid newMsg)).currentChat
        = some c2 ∧ newMsg ∈ c2.messages ∧ msg ∉ c2.messages := by
  refine ⟨_, currentChat_updateMessage now st c cid mid newMsg h hcid, ?_, ?_⟩
  · unfold replaceMsg
    exact List.mem_map.mpr ⟨msg, hmem, by simp [hid]⟩
  · unfold replaceMsg
    intro hmm
    rcases List.mem_map.mp hmm with ⟨x, _hx, hfx⟩
    by_cases hxi : (x.id == mid) = true
    · rw [if_pos hxi] at hfx
      exact hne hfx.symm
    · rw [if_neg hxi] at hfx
      rw [hfx, hid] at hxi
      simp at hxi

/-- Witness for C7 amended at the concrete completed message. -/
theorem C7_witness :
    ∃ c2,
      (chatReducer "t2" stateWithCompleted
        (ChatAction.updateMessage "c2" "m1" editedMsg)).currentChat = some c2 ∧
      editedMsg ∈ c2.messages ∧ completedMsg ∉ c2.messages :=
  C7_update_replaces_regardless stateWithCompleted chatWithCompleted "c2" "m1"
    "t2" editedMsg completedMsg rfl rfl (List.mem_singleton.mpr rfl) rfl
    (Or.inl rfl) (by decide)

/-- C6 counterexample: a message loaded back from the backend with no stored
sources gets `sources = undefined` (`none`), not an empty list. -/
theorem C6_loaded_null_sources_counterexample :
    (transformBackendMessageToChatMessage
      { id := 7, content := "answer", role := "assistant" } "t3").sources = none ∧
      (none : Option (List String)) ≠ some [] :=
  ⟨rfl, by decide⟩

/-- C1 counterexample: with a confidential file attached and the external
model selected, the turn is not blocked — the validation merely asks for
confirmation (`blockedReason` in the earlier hook revision is informational
only), `canSend`/`handleSubmit` ignore it, `sendMessage` invokes the
streaming service, and the assistant Message is created with status
`streaming`. -/
theorem C1_not_blocked_counterexample :
    (useConfidentialityValidationRev1 [sampleConfidentialFile] ["f1"]
        sampleModels "gpt-4o").blockedReason ≠ none ∧
      (useConfidentialityValidation [sampleConfidentialFile] ["f1"]
        sampleModels "gpt-4o").needsConfirmation = true ∧
      canModelAccessConfidential sampleModels "gpt-4o" = false ∧
      canSend "hello" false = true ∧
      handleSubmit "hello" false = some "hello" ∧
      (sendMessage baseState "hello" (some [sampleAttachment]) "u1" "a1" "t0"
        [] StreamEnd.clean).2 = true ∧
      (currentMessages (sendMessage baseState "hello" (some [sampleAttachment])
        "u1" "a1" "t0" [] StreamEnd.clean).1).any
          (fun m => m.status == some MsgStatus.streaming) = true := by
  refine ⟨by decide, by decide, by decide, by decide, by decide, by decide, by decide⟩

/-- C2 counterexample: aborting mid-stream leaves the assistant Message in
status `streaming` with its partial content — it is never marked `error`,
because `streamMessage` filters the `AbortError` out before `onError`. -/
theorem C2_abort_counterexample :
    currentMessages (sendMessage baseState "hi" none "u1" "a1" "t0"
        [startChunk, contentChunk "Hel"] StreamEnd.aborted).1 =
      [{ mkUserMessage "u1" "hi" "t0" none with status := some MsgStatus.sent },
       { mkAssistantMessage "a1" "t0" with content := "Hel" }] ∧
      ({ mkAssistantMessage "a1" "t0" with content := "Hel" }).status =
        some MsgStatus.streaming ∧
      ({ mkAssistantMessage "a1" "t0" with content := "Hel" }).error = none ∧
      some MsgStatus.streaming ≠ some MsgStatus.error := by
  refine ⟨by decide, rfl, rfl, by decide⟩

/-! Properties of first-seen deduplication (claim C5). -/

lemma mem_dedupFirstSeen (a : String) (l : List String) :
    a ∈ dedupFirstSeen l ↔ a ∈ l := by
  induction l using dedupFirstSeen.induct with
  | case1 => simp [dedupFirstSeen]
  | case2 x xs ih =>
      rw [dedupFirstSeen]
      by_cases hax : a = x
      · simp [hax]
      · simp only [List.mem_cons, ih, List.mem_filter]
        simp [hax]

lemma nodup_dedupFirstSeen (l : List String) : (dedupFirstSeen l).Nodup := by
  induction l using dedupFirstSeen.induct with
  | case1 => simp [dedupFirstSeen]
  | case2 x xs ih =>
      rw [dedupFirstSeen]
      refine List.nodup_cons.mpr ⟨?_, ih⟩
      intro hmem
      rw [mem_dedupFirstSeen] at hmem
      simp at hmem

lemma sublist_dedupFirstSeen (l : List String) : (dedupFirstSeen l).Sublist l := by
  induction l using dedupFirstSeen.induct with
  | case1 => simp [dedupFirstSeen]
  | case2 x xs ih =>
      rw [dedupFirstSeen]
      exact List.Sublist.cons₂ x (ih.trans (List.filter_sublist xs))

lemma foldl_setAdd_eq (l : List String) : ∀ (acc : List String),
    l.foldl setAdd acc = acc ++ dedupFirstSeen (l.filter (fun y => decide (y ∉ acc))) := by
  induction l with
  | nil => intro acc; simp [dedupFirstSeen]
  | cons x xs ih =>
      intro acc
      by_cases hx : x ∈ acc
      · have h1 : setAdd acc x = acc := by simp [setAdd, hx]
        rw [List.foldl_cons, h1, ih acc]
        have h2 : (x :: xs).filter (fun y => decide (y ∉ acc)) =
            xs.filter (fun y => decide (y ∉ acc)) := by
          simp [List.filter_cons, hx]
        rw [h2]
      · have h1 : setAdd acc x = acc ++ [x] := by simp [setAdd, hx]
        rw [List.foldl_cons, h1, ih (acc ++ [x])]
        have h2 : (x :: xs).filter (fun y => decide (y ∉ acc)) =
            x :: xs.filter (fun y => decide (y ∉ acc)) := by
          simp [List.filter_cons, hx]
        rw [h2, dedupFirstSeen, List.filter_filter]
        have h3 : xs.filter (fun y => decide (y ∉ acc ++ [x])) =
            xs.filter (fun a => (fun y => decide (y ∉ acc)) a && (fun y => y != x) a) := by
          apply List.filter_congr
          intro y _
          by_cases h4 : y = x <;> by_cases h5 : y ∈ acc <;> simp [h4, h5]
        rw [h3]
        simp only [List.append_assoc, List.cons_append, List.nil_append]
        congr 2
        congr 1
        apply List.filter_congr
        intro y _
        rw [Bool.and_comm]

lemma setFold_eq_dedupFirstSeen (l : List String) :
    l.foldl setAdd [] = dedupFirstSeen l := by
  rw [foldl_setAdd_eq]
  simp

/-- C5: the backend-to-frontend source transformation collapses entries with
the same extracted filename to a single entry, keeps the first-seen order
(it equals first-seen deduplication followed by the blank-name filter), has
no duplicates, and is a sublist of the extracted-name sequence; a name
survives iff it occurs among the extracted names and is not blank. -/
theorem C5_sources_dedup_first_seen (items : List SourceItem) :
    ∃ out,
      transformSources (some (ParsedSources.arr items)) = some out ∧
      out = (dedupFirstSeen (items.filterMap extractItemName)).filter
              (fun name => name != "" && jsTrim name != "") ∧
      out.Nodup ∧
      out.Sublist (items.filterMap extractItemName) ∧
      ∀ n, n ∈ out ↔ (n ∈ items.filterMap extractItemName ∧ jsTrim n ≠ "") := by
  refine ⟨(dedupFirstSeen (items.filterMap extractItemName)).filter
    (fun name => name != "" && jsTrim name != ""), ?_, rfl, ?_, ?_, ?_⟩
  · simp only [transformSources]
    rw [setFold_eq_dedupFirstSeen]
  · exact (nodup_dedupFirstSeen _).filter _
  · exact (List.filter_sublist _).trans (sublist_dedupFirstSeen _)
  · intro n
    rw [List.mem_filter, mem_dedupFirstSeen]
    constructor
    · rintro ⟨h1, h2⟩
      simp only [Bool.and_eq_true, bne_iff_ne, ne_eq] at h2
      exact ⟨h1, h2.2⟩
    · rintro ⟨h1, h2⟩
      refine ⟨h1, ?_⟩
      have hne : n ≠ "" := by
        intro h
        apply h2
        rw [h]
        rfl
      simp only [Bool.and_eq_true, bne_iff_ne, ne_eq]
      exact ⟨hne, h2⟩

/-! Correspondence between the stateful streaming run and the pure
`TurnView` run (claims C1, C2, C4, C6). -/

lemma handleChunkStep_turnView
    (userMessage assistantMessage : ChatMessage) (uid aid cid now : String)
    (hu : userMessage.id = uid) (ha : assistantMessage.id = aid)
    (hne : uid ≠ aid) (ms : List ChatMessage)
    (hmu : ∀ x ∈ ms, x.id ≠ uid) (hma : ∀ x ∈ ms, x.id ≠ aid)
    (st : ChatState) (c : Chat) (v : TurnView) (ch : StreamChunk)
    (h : st.currentChat = some c) (hcid : c.id = cid)
    (hmsg : c.messages = ms ++ [v.userMsg, v.assistantMsg])
    (hvu : v.userMsg.id = uid) (hva : v.assistantMsg.id = aid) :
    ∃ st2 c2,
      handleChunkStep cid userMessage assistantMessage aid now st
          (v.accContent, v.accSources) ch =
        (st2, ((uaChunkStep userMessage assistantMessage v ch).accContent,
               (uaChunkStep userMessage assistantMessage v ch).accSources)) ∧
      st2.currentChat = some c2 ∧ c2.id = cid ∧
      c2.messages = ms ++
        [(uaChunkStep userMessage assistantMessage v ch).userMsg,
         (uaChunkStep userMessage assistantMessage v ch).assistantMsg] ∧
      (uaChunkStep userMessage assistantMessage v ch).userMsg.id = uid ∧
      (uaChunkStep userMessage assistantMessage v ch).assistantMsg.id = aid := by
  obtain ⟨ty, co, si, mo, so, cu, er⟩ := ch
  cases ty with
  | start =>
      refine ⟨_, _, rfl, currentChat_updateMessage now st c cid _ _ h hcid, hcid, ?_, hu, hva⟩
      simp only [uaChunkStep]
      show replaceMsg userMessage.id _ c.messages = _
      rw [hu, hmsg]
      exact replaceMsg_pair_user uid aid _ _ _ ms hmu hvu hva hne
  | chunk =>
      cases co with
      | none =>
          exact ⟨st, c, rfl, h, hcid, hmsg, hvu, hva⟩
      | some content =>
          by_cases hc : (content != "") = true
          · simp only [handleChunkStep, uaChunkStep, hc, if_true]
            refine ⟨_, _, rfl, currentChat_updateMessage now st c cid _ _ h hcid, hcid, ?_, hvu, ha⟩
            show replaceMsg aid _ c.messages = _
            rw [hmsg]
            exact replaceMsg_pair_assistant uid aid _ _ _ ms hma hvu hva hne
          · simp only [handleChunkStep, uaChunkStep, hc, if_false]
            exact ⟨st, c, rfl, h, hcid, hmsg, hvu, hva⟩
  | sources =>
      cases so with
      | none =>
          exact ⟨st, c, rfl, h, hcid, hmsg, hvu, hva⟩
      | some srcs =>
          simp only [handleChunkStep, uaChunkStep]
          refine ⟨_, _, rfl, currentChat_updateMessage now st c cid _ _ h hcid, hcid, ?_, hvu, ha⟩
          show replaceMsg aid _ c.messages = _
          rw [hmsg]
          exact replaceMsg_pair_assistant uid aid _ _ _ ms hma hvu hva hne
  | status =>
      exact ⟨st, c, rfl, h, hcid, hmsg, hvu, hva⟩
  | metadata =>
      exact ⟨st, c, rfl, h, hcid, hmsg, hvu, hva⟩
  | done =>
      simp only [handleChunkStep, uaChunkStep]
      refine ⟨_, _, rfl, currentChat_updateMessage now st c cid _ _ h hcid, hcid, ?_, hvu, ha⟩
      show replaceMsg aid _ c.messages = _
      rw [hmsg]
      exact replaceMsg_pair_assistant uid aid _ _ _ ms hma hvu hva hne
  | error =>
      simp only [handleChunkStep, uaChunkStep]
      refine ⟨_, _, rfl, currentChat_updateMessage now st c cid _ _ h hcid, hcid, ?_, hvu, ha⟩
      show replaceMsg aid _ c.messages = _
      rw [hmsg]
      exact replaceMsg_pair_assistant uid aid _ _ _ ms hma hvu hva hne

lemma foldChunks_turnView
    (userMessage assistantMessage : ChatMessage) (uid aid cid now : String)
    (hu : userMessage.id = uid) (ha : assistantMessage.id = aid)
    (hne : uid ≠ aid) (ms : List ChatMessage)
    (hmu : ∀ x ∈ ms, x.id ≠ uid) (hma : ∀ x ∈ ms, x.id ≠ aid) :
    ∀ (chunks : List StreamChunk) (st : ChatState) (c : Chat) (v : TurnView),
      st.currentChat = some c → c.id = cid →
      c.messages = ms ++ [v.userMsg, v.assistantMsg] →
      v.userMsg.id = uid → v.assistantMsg.id = aid →
      ∃ c2,
        (chunks.foldl (fun p ch =>
            handleChunkStep cid userMessage assistantMessage aid now p.1 p.2 ch)
          (st, (v.accContent, v.accSources))).1.currentChat = some c2 ∧
        c2.id = cid ∧
        c2.messages = ms ++
          [(chunks.foldl (uaChunkStep userMessage assistantMessage) v).userMsg,
           (chunks.foldl (uaChunkStep userMessage assistantMessage) v).assistantMsg] ∧
        (chunks.foldl (fun p ch =>
            handleChunkStep cid userMessage assistantMessage aid now p.1 p.2 ch)
          (st, (v.accContent, v.accSources))).2 =
          ((chunks.foldl (uaChunkStep userMessage assistantMessage) v).accContent,
           (chunks.foldl (uaChunkStep userMessage assistantMessage) v).accSources) ∧
        (chunks.foldl (uaChunkStep userMessage assistantMessage) v).userMsg.id = uid ∧
        (chunks.foldl (uaChunkStep userMessage assistantMessage) v).assistantMsg.id = aid := by
  intro chunks
  induction chunks with
  | nil =>
      intro st c v h hcid hmsg hvu hva
      exact ⟨c, h, hcid, hmsg, rfl, hvu, hva⟩
  | cons ch rest ih =>
      intro st c v h hcid hmsg hvu hva
      obtain ⟨st2, c2, heq, h2, h2id, h2msg, h2u, h2a⟩ :=
        handleChunkStep_turnView userMessage assistantMessage uid aid cid now
          hu ha hne ms hmu hma st c v ch h hcid hmsg hvu hva
      rw [List.foldl_cons, List.foldl_cons, heq]
      exact ih st2 c2 (uaChunkStep userMessage assistantMessage v ch) h2 h2id h2msg h2u h2a

lemma updateMessage_pair_user (uid aid cid now : String)
    (st : ChatState) (c : Chat) (ms : List ChatMessage) (u a m : ChatMessage)
    (h : st.currentChat = some c) (hcid : c.id = cid)
    (hmsg : c.messages = ms ++ [u, a]) (hmu : ∀ x ∈ ms, x.id ≠ uid)
    (hu : u.id = uid) (ha : a.id = aid) (hne : uid ≠ aid) :
    (chatReducer now st (ChatAction.updateMessage cid uid m)).currentChat
      = some { c with messages := ms ++ [m, a] } := by
  rw [currentChat_updateMessage now st c cid uid m h hcid, hmsg,
    replaceMsg_pair_user uid aid m u a ms hmu hu ha hne]

lemma updateMessage_pair_assistant (uid aid cid now : String)
    (st : ChatState) (c : Chat) (ms : List ChatMessage) (u a m : ChatMessage)
    (h : st.currentChat = some c) (hcid : c.id = cid)
    (hmsg : c.messages = ms ++ [u, a]) (hma : ∀ x ∈ ms, x.id ≠ aid)
    (hu : u.id = uid) (ha : a.id = aid) (hne : uid ≠ aid) :
    (chatReducer now st (ChatAction.updateMessage cid aid m)).currentChat
      = some { c with messages := ms ++ [u, m] } := by
  rw [currentChat_updateMessage now st c cid aid m h hcid, hmsg,
    replaceMsg_pair_assistant uid aid m u a ms hma hu ha hne]

lemma handleStreamError_turnView
    (userMessage assistantMessage : ChatMessage) (uid aid cid now e : String)
    (acc1 : String)
    (hu : userMessage.id = uid) (_ha : assistantMessage.id = aid)
    (hne : uid ≠ aid) (ms : List ChatMessage)
    (hmu : ∀ x ∈ ms, x.id ≠ uid) (hma : ∀ x ∈ ms, x.id ≠ aid)
    (st : ChatState) (c : Chat) (v : TurnView)
    (hacc : acc1 = v.accContent)
    (h : st.currentChat = some c) (hcid : c.id = cid)
    (hmsg : c.messages = ms ++ [v.userMsg, v.assistantMsg])
    (hvu : v.userMsg.id = uid) (hva : v.assistantMsg.id = aid) :
    ∃ c2,
      (handleStreamError cid userMessage assistantMessage aid acc1 e now
          st).currentChat = some c2 ∧
      c2.id = cid ∧
      c2.messages = ms ++
        [(uaError userMessage assistantMessage v e).userMsg,
         (uaError userMessage assistantMessage v e).assistantMsg] := by
  subst hacc
  unfold handleStreamError uaError
  by_cases hcond : (userMessage.status == some MsgStatus.sending) = true
  · simp only [hcond, if_true]
    have hA := updateMessage_pair_user uid aid cid now st c ms v.userMsg
      v.assistantMsg
      { userMessage with status := some MsgStatus.error, error := some { message := "Failed to send message", retryable := true } }
      h hcid hmsg hmu hvu hva hne
    rw [← hu] at hA
    have hB := updateMessage_pair_assistant uid aid cid now _ _ ms
      { userMessage with status := some MsgStatus.error, error := some { message := "Failed to send message", retryable := true } }
      v.assistantMsg
      { assistantMessage with content := v.accContent, status := some MsgStatus.error, isGenerating := some false, error := some { message := strOrDefault (some e) "Connection failed", retryable := true } }
      hA hcid rfl hma hu hva hne
    exact ⟨_, hB, hcid, rfl⟩
  · simp only [hcond, if_false]
    have hB := updateMessage_pair_assistant uid aid cid now st c ms v.userMsg
      v.assistantMsg
      { assistantMessage with content := v.accContent, status := some MsgStatus.error, isGenerating := some false, error := some { message := strOrDefault (some e) "Connection failed", retryable := true } }
      h hcid hmsg hma hvu hva hne
    exact ⟨_, hB, hcid, rfl⟩

theorem sendMessage_run (st : ChatState) (c : Chat) (content : String)
    (att : Option (List FileAttachment)) (uid aid now : String)
    (chunks : List StreamChunk) (ending : StreamEnd)
    (h : st.currentChat = some c)
    (hmu : ∀ x ∈ c.messages, x.id ≠ uid) (hma : ∀ x ∈ c.messages, x.id ≠ aid)
    (hne : uid ≠ aid) :
    (sendMessage st content att uid aid now chunks ending).2 = true ∧
    ∃ c2,
      (sendMessage st content att uid aid now chunks ending).1.currentChat
        = some c2 ∧
      c2.id = c.id ∧
      c2.messages = c.messages ++
        [(turnResult (mkUserMessage uid content now att)
            (mkAssistantMessage aid now) chunks ending).userMsg,
         (turnResult (mkUserMessage uid content now att)
            (mkAssistantMessage aid now) chunks ending).assistantMsg] := by
  simp only [sendMessage, h]
  refine ⟨trivial, ?_⟩
  have h1 := currentChat_addMessage now st c c.id
    (mkUserMessage uid content now att) h rfl
  have h2 : (chatReducer now
      (chatReducer now st (ChatAction.addMessage c.id (mkUserMessage uid content now att)))
      (ChatAction.setSelectedFiles [])).currentChat
      = some { c with
               messages := c.messages ++ [mkUserMessage uid content now att],
               updatedAt := now } := by
    rw [currentChat_setSelectedFiles]
    exact h1
  have h3 := currentChat_addMessage now _ _ c.id (mkAssistantMessage aid now) h2 rfl
  have h4 := updateMessage_pair_user uid aid c.id now _ _ c.messages
    (mkUserMessage uid content now att) (mkAssistantMessage aid now)
    { mkUserMessage uid content now att with status := some MsgStatus.sending }
    h3 rfl (by simp [List.append_assoc]) hmu rfl rfl hne
  obtain ⟨c5, h5, h5id, h5msg, h5acc, h5u, h5a⟩ :=
    foldChunks_turnView (mkUserMessage uid content now att)
      (mkAssistantMessage aid now) uid aid c.id now rfl rfl hne c.messages hmu hma
      (deliveredChunks chunks) _ _
      { userMsg := { mkUserMessage uid content now att with status := some MsgStatus.sending },
        assistantMsg := mkAssistantMessage aid now, accContent := "", accSources := [] }
      h4 rfl rfl rfl rfl
  rcases heo : streamErrorCall chunks ending with _ | e
  · simp only [heo, turnResult]
    exact ⟨c5, h5, h5id, h5msg⟩
  · simp only [heo, turnResult]
    exact handleStreamError_turnView (mkUserMessage uid content now att)
      (mkAssistantMessage aid now) uid aid c.id now e _ rfl rfl hne c.messages
      hmu hma _ c5 _ (congrArg Prod.fst h5acc) h5 h5id h5msg h5u h5a

/-! Evaluating a turn on the chunk shapes the claims talk about. -/

lemma deliveredChunks_of_no_done (l : List StreamChunk)
    (h : ∀ ch ∈ l, ch.type ≠ ChunkType.done) : deliveredChunks l = l := by
  induction l with
  | nil => rfl
  | cons ch rest ih =>
      simp only [deliveredChunks]
      rw [if_neg (by simp [h ch (List.mem_cons_self ch rest)]),
        ih (fun x hx => h x (List.mem_cons_of_mem ch hx))]

lemma deliveredChunks_append_done (l : List StreamChunk)
    (h : ∀ ch ∈ l, ch.type ≠ ChunkType.done) :
    deliveredChunks (l ++ [doneChunk]) = l ++ [doneChunk] := by
  induction l with
  | nil => rfl
  | cons ch rest ih =>
      simp only [List.cons_append, deliveredChunks]
      rw [if_neg (by simp [h ch (List.mem_cons_self ch rest)])]
      simp only [List.append_eq]
      rw [ih (fun x hx => h x (List.mem_cons_of_mem ch hx))]

lemma streamErrorCall_clean (l : List StreamChunk) :
    streamErrorCall l StreamEnd.clean = none := by
  unfold streamErrorCall
  by_cases hc : (l.any fun ch => ch.type == ChunkType.done) = true <;> simp [hc]

lemma streamErrorCall_aborted (l : List StreamChunk) :
    streamErrorCall l StreamEnd.aborted = none := by
  unfold streamErrorCall
  by_cases hc : (l.any fun ch => ch.type == ChunkType.done) = true <;> simp [hc]

lemma streamErrorCall_failed (l : List StreamChunk) (e : String)
    (h : ∀ ch ∈ l, ch.type ≠ ChunkType.done) :
    streamErrorCall l (StreamEnd.failed e) = some e := by
  unfold streamErrorCall
  have hany : (l.any fun ch => ch.type == ChunkType.done) = false := by
    rw [List.any_eq_false]
    intro ch hch
    simpa using h ch hch
  rw [hany]
  rfl

lemma no_done_start_content (cs : List String) (extra : List StreamChunk)
    (hextra : ∀ ch ∈ extra, ch.type ≠ ChunkType.done) :
    ∀ ch ∈ startChunk :: (cs.map contentChunk ++ extra),
      ch.type ≠ ChunkType.done := by
  intro ch hch
  rcases List.mem_cons.mp hch with h1 | h2
  · rw [h1]; simp [startChunk]
  · rcases List.mem_append.mp h2 with h3 | h4
    · rcases List.mem_map.mp h3 with ⟨s, _, rfl⟩
      simp [contentChunk]
    · exact hextra ch h4

lemma uaStep_start (uM aM : ChatMessage) (v : TurnView) :
    uaChunkStep uM aM v startChunk =
      { v with userMsg := { uM with status := some MsgStatus.sent } } := rfl

lemma uaStep_done (uM aM : ChatMessage) (v : TurnView) :
    uaChunkStep uM aM v doneChunk =
      { v with
        assistantMsg := { aM with
          content := v.accContent, sources := some v.accSources,
          status := some MsgStatus.completed, isGenerating := some false } } := rfl

lemma uaStep_error (uM aM : ChatMessage) (v : TurnView) (e : String) :
    uaChunkStep uM aM v (errorChunk e) =
      { v with
        assistantMsg := { aM with
          content := v.accContent, status := some MsgStatus.error,
          isGenerating := some false,
          error := some { message := strOrDefault (some e) "Unknown streaming error",
                          retryable := true } } } := rfl

lemma uaFold_content (uM aM : ChatMessage) :
    ∀ (cs : List String) (v : TurnView),
      v.assistantMsg = { aM with
        content := v.accContent, status := some MsgStatus.streaming,
        isGenerating := some true } →
      (cs.map contentChunk).foldl (uaChunkStep uM aM) v =
        { v with
          assistantMsg := { aM with
            content := v.accContent ++ jsConcat cs,
            status := some MsgStatus.streaming, isGenerating := some true },
          accContent := v.accContent ++ jsConcat cs } := by
  intro cs
  induction cs with
  | nil =>
      intro v hv
      simp only [List.map_nil, List.foldl_nil, jsConcat, String.append_empty, ← hv]
  | cons s rest ih =>
      intro v hv
      rw [List.map_cons, List.foldl_cons]
      by_cases hs : (s != "") = true
      · have hstep : uaChunkStep uM aM v (contentChunk s) =
            { v with
              assistantMsg := { aM with
                content := v.accContent ++ s,
                status := some MsgStatus.streaming, isGenerating := some true },
              accContent := v.accContent ++ s } := by
          simp [uaChunkStep, contentChunk, hs]
        rw [hstep, ih _ rfl]
        simp only [jsConcat, String.append_assoc]
      · have hs' : s = "" := by simpa using hs
        have hstep : uaChunkStep uM aM v (contentChunk s) = v := by
          simp [uaChunkStep, contentChunk, hs]
        rw [hstep, ih v hv, hs']
        simp only [jsConcat, String.empty_append]

/-- C2 amended: aborting an in-flight streaming turn cancels the request and
appends nothing further — the assistant Message keeps exactly the partial
content streamed before the abort — but the Message is NOT marked `error`:
it is left with status `streaming` and no error attached, because
`streamMessage` swallows the `AbortError` and never invokes `onError`. -/
theorem C2_abort_leaves_streaming (st : ChatState) (c : Chat)
    (content : String) (att : Option (List FileAttachment))
    (uid aid now : String) (cs : List String)
    (h : st.currentChat = some c)
    (hmu : ∀ x ∈ c.messages, x.id ≠ uid) (hma : ∀ x ∈ c.messages, x.id ≠ aid)
    (hne : uid ≠ aid) :
    ∃ c2,
      (sendMessage st content att uid aid now
        (startChunk :: cs.map contentChunk) StreamEnd.aborted).1.currentChat
        = some c2 ∧
      c2.messages = c.messages ++
        [{ mkUserMessage uid content now att with status := some MsgStatus.sent },
         { mkAssistantMessage aid now with content := jsConcat cs }] ∧
      ({ mkAssistantMessage aid now with content := jsConcat cs }).status =
        some MsgStatus.streaming ∧
      ({ mkAssistantMessage aid now with content := jsConcat cs }).error = none := by
  obtain ⟨-, c2, hcur, -, hmsg⟩ := sendMessage_run st c content att uid aid now
    (startChunk :: cs.map contentChunk) StreamEnd.aborted h hmu hma hne
  refine ⟨c2, hcur, ?_, rfl, rfl⟩
  rw [hmsg]
  have hTR : turnResult (mkUserMessage uid content now att)
      (mkAssistantMessage aid now) (startChunk :: cs.map contentChunk)
      StreamEnd.aborted =
      { userMsg := { mkUserMessage uid content now att with
          status := some MsgStatus.sent },
        assistantMsg := { mkAssistantMessage aid now with content := jsConcat cs },
        accContent := jsConcat cs, accSources := [] } := by
    have hnodone : ∀ ch ∈ startChunk :: cs.map contentChunk,
        ch.type ≠ ChunkType.done := by
      have := no_done_start_content cs [] (by intro ch hch; cases hch)
      simpa using this
    simp only [turnResult, streamErrorCall_aborted]
    rw [deliveredChunks_of_no_done _ hnodone, List.foldl_cons, uaStep_start,
      uaFold_content _ _ cs _ rfl]
    simp [String.empty_append, mkAssistantMessage]
  rw [hTR]

/-- C4: a streaming turn that receives an `error` stream event, or a
transport error, after some content chunks ends with the assistant Message
in status `error`, carrying a `retryable := true` error, with its content
equal to everything streamed so far — and the error is attached to the same
Message: the chat gains exactly the user message and that one assistant
message, no extra Message. -/
theorem C4_error_preserves_streamed_content (st : ChatState) (c : Chat)
    (content : String) (att : Option (List FileAttachment))
    (uid aid now : String) (cs : List String) (e : String)
    (h : st.currentChat = some c)
    (hmu : ∀ x ∈ c.messages, x.id ≠ uid) (hma : ∀ x ∈ c.messages, x.id ≠ aid)
    (hne : uid ≠ aid) :
    (∃ c2,
      (sendMessage st content att uid aid now
        (startChunk :: (cs.map contentChunk ++ [errorChunk e]))
        StreamEnd.clean).1.currentChat = some c2 ∧
      c2.messages = c.messages ++
        [{ mkUserMessage uid content now att with status := some MsgStatus.sent },
         { mkAssistantMessage aid now with
           content := jsConcat cs, status := some MsgStatus.error,
           isGenerating := some false,
           error := some { message := strOrDefault (some e) "Unknown streaming error",
                           retryable := true } }]) ∧
    ∃ c2,
      (sendMessage st content att uid aid now
        (startChunk :: cs.map contentChunk)
        (StreamEnd.failed e)).1.currentChat = some c2 ∧
      c2.messages = c.messages ++
        [{ mkUserMessage uid content now att with status := some MsgStatus.sent },
         { mkAssistantMessage aid now with
           content := jsConcat cs, status := some MsgStatus.error,
           isGenerating := some false,
           error := some { message := strOrDefault (some e) "Connection failed",
                           retryable := true } }] := by
  constructor
  · obtain ⟨-, c2, hcur, -, hmsg⟩ := sendMessage_run st c content att uid aid now
      (startChunk :: (cs.map contentChunk ++ [errorChunk e])) StreamEnd.clean
      h hmu hma hne
    refine ⟨c2, hcur, ?_⟩
    rw [hmsg]
    have hnodone : ∀ ch ∈ startChunk :: (cs.map contentChunk ++ [errorChunk e]),
        ch.type ≠ ChunkType.done :=
      no_done_start_content cs [errorChunk e]
        (by intro ch hch; rcases List.mem_singleton.mp hch with rfl; simp [errorChunk])
    have hTR : turnResult (mkUserMessage uid content now att)
        (mkAssistantMessage aid now)
        (startChunk :: (cs.map contentChunk ++ [errorChunk e]))
        StreamEnd.clean =
        { userMsg := { mkUserMessage uid content now att with
            status := some MsgStatus.sent },
          assistantMsg := { mkAssistantMessage aid now with
            content := jsConcat cs, status := some MsgStatus.error,
            isGenerating := some false,
            error := some { message := strOrDefault (some e) "Unknown streaming error",
                            retryable := true } },
          accContent := jsConcat cs, accSources := [] } := by
      simp only [turnResult, streamErrorCall_clean]
      rw [deliveredChunks_of_no_done _ hnodone, List.foldl_cons, uaStep_start,
        List.foldl_append, uaFold_content _ _ cs _ rfl, List.foldl_cons,
        List.foldl_nil, uaStep_error]
      simp [String.empty_append, mkAssistantMessage]
    rw [hTR]
  · obtain ⟨-, c2, hcur, -, hmsg⟩ := sendMessage_run st c content att uid aid now
      (startChunk :: cs.map contentChunk) (StreamEnd.failed e) h hmu hma hne
    refine ⟨c2, hcur, ?_⟩
    rw [hmsg]
    have hnodone : ∀ ch ∈ startChunk :: cs.map contentChunk,
        ch.type ≠ ChunkType.done := by
      have := no_done_start_content cs [] (by intro ch hch; cases hch)
      simpa using this
    have hTR : turnResult (mkUserMessage uid content now att)
        (mkAssistantMessage aid now) (startChunk :: cs.map contentChunk)
        (StreamEnd.failed e) =
        { userMsg := { mkUserMessage uid content now att with
            status := some MsgStatus.sent },
          assistantMsg := { mkAssistantMessage aid now with
            content := jsConcat cs, status := some MsgStatus.error,
            isGenerating := some false,
            error := some { message := strOrDefault (some e) "Connection failed",
                            retryable := true } },
          accContent := jsConcat cs, accSources := [] } := by
      simp only [turnResult, streamErrorCall_failed _ e hnodone]
      rw [deliveredChunks_of_no_done _ hnodone, List.foldl_cons, uaStep_start,
        uaFold_content _ _ cs _ rfl]
      simp only [uaError, mkUserMessage]
      simp [String.empty_append, mkAssistantMessage]
    rw [hTR]

/-- Witness for C4 at a concrete turn with two content chunks and then an
error event (and separately a transport failure). -/
theorem C4_witness :
    (∃ c2,
      (sendMessage baseState "hi" none "u1" "a1" "t0"
        (startChunk :: (["Hel", "lo"].map contentChunk ++ [errorChunk "boom"]))
        StreamEnd.clean).1.currentChat = some c2 ∧
      c2.messages = emptyChat.messages ++
        [{ mkUserMessage "u1" "hi" "t0" none with status := some MsgStatus.sent },
         { mkAssistantMessage "a1" "t0" with
           content := jsConcat ["Hel", "lo"], status := some MsgStatus.error,
           isGenerating := some false,
           error := some { message := strOrDefault (some "boom") "Unknown streaming error",
                           retryable := true } }]) ∧
    ∃ c2,
      (sendMessage baseState "hi" none "u1" "a1" "t0"
        (startChunk :: ["Hel", "lo"].map contentChunk)
        (StreamEnd.failed "boom")).1.currentChat = some c2 ∧
      c2.messages = emptyChat.messages ++
        [{ mkUserMessage "u1" "hi" "t0" none with status := some MsgStatus.sent },
         { mkAssistantMessage "a1" "t0" with
           content := jsConcat ["Hel", "lo"], status := some MsgStatus.error,
           isGenerating := some false,
           error := some { message := strOrDefault (some "boom") "Connection failed",
                           retryable := true } }] :=
  C4_error_preserves_streamed_content baseState emptyChat "hi" none "u1" "a1" "t0"
    ["Hel", "lo"] "boom" rfl (by intro x hx; cases hx) (by intro x hx; cases hx)
    (by decide)

/-- Witness for C2 amended at a concrete aborted turn. -/
theorem C2_witness :
    ∃ c2,
      (sendMessage baseState "hi" none "u1" "a1" "t0"
        (startChunk :: ["Hel", "lo"].map contentChunk)
        StreamEnd.aborted).1.currentChat = some c2 ∧
      c2.messages = emptyChat.messages ++
        [{ mkUserMessage "u1" "hi" "t0" none with status := some MsgStatus.sent },
         { mkAssistantMessage "a1" "t0" with content := jsConcat ["Hel", "lo"] }] ∧
      ({ mkAssistantMessage "a1" "t0" with
          content := jsConcat ["Hel", "lo"] }).status = some MsgStatus.streaming ∧
      ({ mkAssistantMessage "a1" "t0" with
          content := jsConcat ["Hel", "lo"] }).error = none :=
  C2_abort_leaves_streaming baseState emptyChat "hi" none "u1" "a1" "t0"
    ["Hel", "lo"] rfl (by intro x hx; cases hx) (by intro x hx; cases hx)
    (by decide)

/-- C6 amended: a streaming turn that completes with no `sources` event
leaves the completed assistant Message with `sources` equal to the empty
list (not null); but a message loaded back from the backend with no stored
sources keeps `sources` undefined (`none`), not an empty list. -/
theorem C6_done_sources_empty_list (st : ChatState) (c : Chat)
    (content : String) (att : Option (List FileAttachment))
    (uid aid now : String) (cs : List String)
    (h : st.currentChat = some c)
    (hmu : ∀ x ∈ c.messages, x.id ≠ uid) (hma : ∀ x ∈ c.messages, x.id ≠ aid)
    (hne : uid ≠ aid) :
    (∃ c2,
      (sendMessage st content att uid aid now
        (startChunk :: (cs.map contentChunk ++ [doneChunk]))
        StreamEnd.clean).1.currentChat = some c2 ∧
      c2.messages = c.messages ++
        [{ mkUserMessage uid content now att with status := some MsgStatus.sent },
         { mkAssistantMessage aid now with
           content := jsConcat cs, sources := some [],
           status := some MsgStatus.completed, isGenerating := some false }]) ∧
    ∀ (b : BackendMessage) (nowIso : String), b.sources = none →
      (transformBackendMessageToChatMessage b nowIso).sources = none := by
  constructor
  · obtain ⟨-, c2, hcur, -, hmsg⟩ := sendMessage_run st c content att uid aid now
      (startChunk :: (cs.map contentChunk ++ [doneChunk])) StreamEnd.clean
      h hmu hma hne
    refine ⟨c2, hcur, ?_⟩
    rw [hmsg]
    have hdel : deliveredChunks (startChunk :: (cs.map contentChunk ++ [doneChunk]))
        = startChunk :: (cs.map contentChunk ++ [doneChunk]) := by
      simp only [deliveredChunks]
      rw [if_neg (by simp [startChunk]),
        deliveredChunks_append_done _ (by
          intro ch hch
          rcases List.mem_map.mp hch with ⟨s, _, rfl⟩
          simp [contentChunk])]
    have hTR : turnResult (mkUserMessage uid content now att)
        (mkAssistantMessage aid now)
        (startChunk :: (cs.map contentChunk ++ [doneChunk]))
        StreamEnd.clean =
        { userMsg := { mkUserMessage uid content now att with
            status := some MsgStatus.sent },
          assistantMsg := { mkAssistantMessage aid now with
            content := jsConcat cs, sources := some [],
            status := some MsgStatus.completed, isGenerating := some false },
          accContent := jsConcat cs, accSources := [] } := by
      simp only [turnResult, streamErrorCall_clean]
      rw [hdel, List.foldl_cons, uaStep_start, List.foldl_append,
        uaFold_content _ _ cs _ rfl, List.foldl_cons, List.foldl_nil,
        uaStep_done]
      simp [String.empty_append, mkAssistantMessage]
    rw [hTR]
  · intro b nowIso hb
    simp [transformBackendMessageToChatMessage, transformSources, hb]

/-- Witness for C6 amended at a concrete completed turn with no sources
event, and a concrete backend message with null sources. -/
theorem C6_witness :
    (∃ c2,
      (sendMessage baseState "hi" none "u1" "a1" "t0"
        (startChunk :: (["Hel", "lo"].map contentChunk ++ [doneChunk]))
        StreamEnd.clean).1.currentChat = some c2 ∧
      c2.messages = emptyChat.messages ++
        [{ mkUserMessage "u1" "hi" "t0" none with status := some MsgStatus.sent },
         { mkAssistantMessage "a1" "t0" with
           content := jsConcat ["Hel", "lo"], sources := some [],
           status := some MsgStatus.completed, isGenerating := some false }]) ∧
    (transformBackendMessageToChatMessage
      { id := 9, content := "plain answer", role := "assistant" } "t3").sources
      = none :=
  ⟨(C6_done_sources_empty_list baseState emptyChat "hi" none "u1" "a1" "t0"
      ["Hel", "lo"] rfl (by intro x hx; cases hx) (by intro x hx; cases hx)
      (by decide)).1,
    (C6_done_sources_empty_list baseState emptyChat "hi" none "u1" "a1" "t0"
      ["Hel", "lo"] rfl (by intro x hx; cases hx) (by intro x hx; cases hx)
      (by decide)).2
      { id := 9, content := "plain answer", role := "assistant" } "t3" rfl⟩

/-- C1 amended: a confidential attachment with an incompatible (external)
model does not block the turn — the current validation hook only requests a
confirmation modal (`needsConfirmation`/`shouldShowModal`, `blockedReason`
stays null), `canSend` still allows any non-blank message while not loading,
and `sendMessage` invokes the streaming service for any open chat, creating
the assistant Message directly in status `streaming`. -/
theorem C1_confirmation_instead_of_block
    (files : List File) (selectedFileIds : List String) (models : List Model)
    (selectedModelId : String)
    (hconf : (useConfidentialityValidation files selectedFileIds models
      selectedModelId).hasConfidentialFiles = true)
    (hincomp : (useConfidentialityValidation files selectedFileIds models
      selectedModelId).isModelCompatible = false) :
    (useConfidentialityValidation files selectedFileIds models
      selectedModelId).needsConfirmation = true ∧
    (useConfidentialityValidation files selectedFileIds models
      selectedModelId).shouldShowModal = true ∧
    (useConfidentialityValidation files selectedFileIds models
      selectedModelId).blockedReason = none ∧
    (∀ message, jsTrim message ≠ "" → canSend message false = true) ∧
    ∀ (st : ChatState) (c : Chat) (content : String)
      (att : Option (List FileAttachment)) (uid aid now : String)
      (chunks : List StreamChunk) (ending : StreamEnd),
      st.currentChat = some c →
      (sendMessage st content att uid aid now chunks ending).2 = true ∧
      (mkAssistantMessage aid now).status = some MsgStatus.streaming := by
  simp only [useConfidentialityValidation] at hconf hincomp ⊢
  rw [hconf] at hincomp ⊢
  simp only [if_true] at hincomp
  refine ⟨?_, ?_, ?_, ?_, ?_⟩
  · simp [hincomp]
  · simp [hincomp]
  · trivial
  · intro message hm
    simp [canSend, hm]
  · intro st c content att uid aid now chunks ending hcc
    refine ⟨?_, ?_⟩
    · simp [sendMessage, hcc]
    · trivial

/-- Witness for C1 amended at the concrete confidential file and external
model. -/
theorem C1_witness :
    (useConfidentialityValidation [sampleConfidentialFile] ["f1"] sampleModels
      "gpt-4o").needsConfirmation = true ∧
    (useConfidentialityValidation [sampleConfidentialFile] ["f1"] sampleModels
      "gpt-4o").shouldShowModal = true ∧
    (useConfidentialityValidation [sampleConfidentialFile] ["f1"] sampleModels
      "gpt-4o").blockedReason = none ∧
    canSend "hello" false = true ∧
    (sendMessage baseState "hello" (some [sampleAttachment]) "u1" "a1" "t0"
      [] StreamEnd.clean).2 = true := by
  obtain ⟨h1, h2, h3, h4, h5⟩ := C1_confirmation_instead_of_block
    [sampleConfidentialFile] ["f1"] sampleModels "gpt-4o" (by decide) (by decide)
  exact ⟨h1, h2, h3, h4 "hello" (by decide),
    (h5 baseState emptyChat "hello" (some [sampleAttachment]) "u1" "a1" "t0"
      [] StreamEnd.clean rfl).1⟩

end DocAssistant
